import Mathlib

/-!
Verification development for the TaskFlow repository: a shallow embedding of
the Remote Entity Gateway (taskService / projectService / userService), the
Entity State Containers (TaskContext / ProjectContext), and the Local-Only
Task Store (Home page + MainFeature form), together with theorems settling
the specification's claims about them.

Modelling conventions:
  * JavaScript exceptions / promise rejections are `Except String` values
    carrying the error message (`new Error(msg)` is `Except.error msg`).
  * Field values are the inductive `FVal`; a record field absent from a
    JS object (undefined) is `Option.none` on lookup.
  * The external client's `response.data` for a list query is modelled as
    a `List Rec` (a missing / null data field is the empty list; no claim
    distinguishes the two).
  * Every call issued against the external client is logged in a
    `List GCall` trace, so "performs no network interaction" is `trace = []`.
  * Timestamps (`Date.now()`, ISO strings, `setHours(0,0,0,0)`) are
    integers; string interpolation is string concatenation.
-/

namespace TaskFlow

/-- A field value as it travels through the gateway (JS dynamic value). -/
inductive FVal where
  | str (s : String)
  | num (n : Int)
deriving DecidableEq, Repr

/-- A record as returned by the external store: the server-assigned `Id`
plus the remaining named fields. -/
structure Rec where
  Id : Int
  fields : List (String × FVal)
deriving DecidableEq, Repr

/-- `r[name]` in JS: `none` models `undefined`. -/
def Rec.getField (r : Rec) (f : String) : Option FVal :=
  r.fields.lookup f

/-- Payload of a create/update call (`params.record`). -/
def RecData := List (String × FVal)
deriving DecidableEq, Repr

/-- One `orderBy` entry. -/
structure OrderBy where
  field : String
  direction : String
deriving DecidableEq, Repr

/-- `pagingInfo: {limit, offset}`. -/
structure Paging where
  limit : Nat
  offset : Nat
deriving DecidableEq, Repr

/-- The filter shapes this codebase builds: none, one field equal to a
value, or one field constrained by `{$in: [...]}` over collected values. -/
inductive Filter where
  | empty
  | eq (field : String) (value : FVal)
  | isin (field : String) (values : List (Option FVal))
deriving DecidableEq, Repr

/-- Parameters of a `fetchRecords` call; `pagingInfo` and `orderBy` are
absent (`none`) on the by-id and association queries. -/
structure FetchParams where
  fields : List String
  filters : Filter
  paging : Option Paging
  orderBy : Option (List OrderBy)
deriving DecidableEq, Repr

/-- Response of `fetchRecords` (its `data` array). -/
structure FetchResponse where
  data : List Rec
deriving DecidableEq, Repr

/-- Response of `createRecord` / `updateRecord` (its `data` record). -/
structure RecResponse where
  data : Rec
deriving DecidableEq, Repr

/-- A logged call against the external client. -/
inductive GCall where
  | fetch (table : String) (params : FetchParams)
  | create (table : String) (record : RecData)
  | update (table : String) (id : Int) (record : RecData)
  | delete (table : String) (id : Int)
deriving DecidableEq, Repr

/-- The table a logged call targets. -/
def GCall.table : GCall → String
  | .fetch t _ => t
  | .create t _ => t
  | .update t _ _ => t
  | .delete t _ => t

/-- The external ApperClient capability: each method either returns a
response or rejects with an error message. -/
structure ApperClient where
  fetchRecords : String → FetchParams → Except String FetchResponse
  createRecord : String → RecData → Except String RecResponse
  updateRecord : String → Int → RecData → Except String RecResponse
  deleteRecord : String → Int → Except String Unit

/-- `TableNames` from `apperClient.js`. -/
def TASK_TABLE : String := "task1"

def PROJECT_TABLE : String := "project1"

def USER_TABLE : String := "User1"

def TASK_PROJECT_TABLE : String := "task_project"

/-- `Object.values(FieldNames.TASK)`. -/
def taskFields : List String :=
  ["Id", "Name", "title", "description", "due_date", "status", "priority", "assigned_to"]

/-- `Object.values(FieldNames.PROJECT)`. -/
def projectFields : List String :=
  ["Id", "Name", "description", "start_date", "end_date", "status"]

/-- `Object.values(FieldNames.USER)`. -/
def userFields : List String :=
  ["Id", "Name", "email", "role"]

/-- Options accepted by the list-style service calls; `none` fields take
the destructuring defaults at the call site. -/
structure FetchOptions where
  filters : Option Filter
  limit : Option Nat
  offset : Option Nat
  orderBy : Option (List OrderBy)

/-- The params `taskService.fetchTasks` builds from its options. -/
def taskListParams (opts : FetchOptions) : FetchParams :=
  { fields := taskFields
    filters := opts.filters.getD .empty
    paging := some ⟨opts.limit.getD 50, opts.offset.getD 0⟩
    orderBy := some (opts.orderBy.getD [⟨"due_date", "asc"⟩]) }

/-- The params `projectService.fetchProjects` builds from its options. -/
def projectListParams (opts : FetchOptions) : FetchParams :=
  { fields := projectFields
    filters := opts.filters.getD .empty
    paging := some ⟨opts.limit.getD 50, opts.offset.getD 0⟩
    orderBy := some (opts.orderBy.getD [⟨"start_date", "desc"⟩]) }

/-- The params of the by-id lookup on a table (`fields` + `{Id: id}`). -/
def byIdParams (fields : List String) (id : Int) : FetchParams :=
  { fields := fields, filters := .eq "Id" (.num id), paging := none, orderBy := none }

/-- `taskService.fetchTasks`: fail fast when the client is uninitialized,
otherwise one `fetchRecords` call whose outcome (data or rejection) is
propagated unchanged. -/
def svcFetchTasks (client : Option ApperClient) (opts : FetchOptions) :
    Except String (List Rec) × List GCall :=
  match client with
  | none => (.error "ApperClient not initialized", [])
  | some c =>
    let params := taskListParams opts
    match c.fetchRecords TASK_TABLE params with
    | .ok resp => (.ok resp.data, [.fetch TASK_TABLE params])
    | .error e => (.error e, [.fetch TASK_TABLE params])

/-- `taskService.fetchTaskById`: `data?.length > 0 ? data[0] : null`. -/
def svcFetchTaskById (client : Option ApperClient) (taskId : Int) :
    Except String (Option Rec) × List GCall :=
  match client with
  | none => (.error "ApperClient not initialized", [])
  | some c =>
    let params := byIdParams taskFields taskId
    match c.fetchRecords TASK_TABLE params with
    | .ok resp =>
      (.ok (match resp.data with | [] => none | r :: _ => some r), [.fetch TASK_TABLE params])
    | .error e => (.error e, [.fetch TASK_TABLE params])

/-- `taskService.createTask`. -/
def svcCreateTask (client : Option ApperClient) (taskData : RecData) :
    Except String Rec × List GCall :=
  match client with
  | none => (.error "ApperClient not initialized", [])
  | some c =>
    match c.createRecord TASK_TABLE taskData with
    | .ok resp => (.ok resp.data, [.create TASK_TABLE taskData])
    | .error e => (.error e, [.create TASK_TABLE taskData])

/-- `taskService.updateTask`. -/
def svcUpdateTask (client : Option ApperClient) (taskId : Int) (taskData : RecData) :
    Except String Rec × List GCall :=
  match client with
  | none => (.error "ApperClient not initialized", [])
  | some c =>
    match c.updateRecord TASK_TABLE taskId taskData with
    | .ok resp => (.ok resp.data, [.update TASK_TABLE taskId taskData])
    | .error e => (.error e, [.update TASK_TABLE taskId taskData])

/-- `taskService.deleteTask`. -/
def svcDeleteTask (client : Option ApperClient) (taskId : Int) :
    Except String Unit × List GCall :=
  match client with
  | none => (.error "ApperClient not initialized", [])
  | some c =>
    match c.deleteRecord TASK_TABLE taskId with
    | .ok _ => (.ok (), [.delete TASK_TABLE taskId])
    | .error e => (.error e, [.delete TASK_TABLE taskId])

/-- The association record `taskService.associateTaskWithProject` creates. -/
def assocRecord (taskId projectId : Int) : RecData :=
  [("task_id", .num taskId), ("project_id", .num projectId)]

/-- `taskService.associateTaskWithProject`: one `createRecord` on the
`task_project` join table. -/
def svcAssociateTaskWithProject (client : Option ApperClient) (taskId projectId : Int) :
    Except String Rec × List GCall :=
  match client with
  | none => (.error "ApperClient not initialized", [])
  | some c =>
    match c.createRecord TASK_PROJECT_TABLE (assocRecord taskId projectId) with
    | .ok resp => (.ok resp.data, [.create TASK_PROJECT_TABLE (assocRecord taskId projectId)])
    | .error e => (.error e, [.create TASK_PROJECT_TABLE (assocRecord taskId projectId)])

/-- `projectService.fetchProjects`. -/
def svcFetchProjects (client : Option ApperClient) (opts : FetchOptions) :
    Except String (List Rec) × List GCall :=
  match client with
  | none => (.error "ApperClient not initialized", [])
  | some c =>
    let params := projectListParams opts
    match c.fetchRecords PROJECT_TABLE params with
    | .ok resp => (.ok resp.data, [.fetch PROJECT_TABLE params])
    | .error e => (.error e, [.fetch PROJECT_TABLE params])

/-- `projectService.createProject`. -/
def svcCreateProject (client : Option ApperClient) (projectData : RecData) :
    Except String Rec × List GCall :=
  match client with
  | none => (.error "ApperClient not initialized", [])
  | some c =>
    match c.createRecord PROJECT_TABLE projectData with
    | .ok resp => (.ok resp.data, [.create PROJECT_TABLE projectData])
    | .error e => (.error e, [.create PROJECT_TABLE projectData])

/-- `projectService.fetchProjectById`. -/
def svcFetchProjectById (client : Option ApperClient) (projectId : Int) :
    Except String (Option Rec) × List GCall :=
  match client with
  | none => (.error "ApperClient not initialized", [])
  | some c =>
    let params := byIdParams projectFields projectId
    match c.fetchRecords PROJECT_TABLE params with
    | .ok resp =>
      (.ok (match resp.data with | [] => none | r :: _ => some r), [.fetch PROJECT_TABLE params])
    | .error e => (.error e, [.fetch PROJECT_TABLE params])

/-- `projectService.deleteProject`. -/
def svcDeleteProject (client : Option ApperClient) (projectId : Int) :
    Except String Unit × List GCall :=
  match client with
  | none => (.error "ApperClient not initialized", [])
  | some c =>
    match c.deleteRecord PROJECT_TABLE projectId with
    | .ok _ => (.ok (), [.delete PROJECT_TABLE projectId])
    | .error e => (.error e, [.delete PROJECT_TABLE projectId])

/-- `userService.fetchUserById`. -/
def svcFetchUserById (client : Option ApperClient) (userId : Int) :
    Except String (Option Rec) × List GCall :=
  match client with
  | none => (.error "ApperClient not initialized", [])
  | some c =>
    let params := byIdParams userFields userId
    match c.fetchRecords USER_TABLE params with
    | .ok resp =>
      (.ok (match resp.data with | [] => none | r :: _ => some r), [.fetch USER_TABLE params])
    | .error e => (.error e, [.fetch USER_TABLE params])

/-- Params of the association query in `fetchTasksByProject`. -/
def assocQueryParams (projectId : Int) : FetchParams :=
  { fields := ["Id", "task_id"]
    filters := .eq "project_id" (.num projectId)
    paging := none
    orderBy := none }

/-- `associations.map(assoc => assoc[TASK_ID])` (undefined stays `none`). -/
def collectedTaskIds (assocs : List Rec) : List (Option FVal) :=
  assocs.map (fun a => a.getField "task_id")

/-- Params of the batched task query in `fetchTasksByProject`:
`{Id: {$in: taskIds}}`. -/
def tasksInParams (ids : List (Option FVal)) : FetchParams :=
  { fields := taskFields, filters := .isin "Id" ids, paging := none, orderBy := none }

/-- `projectService.fetchTasksByProject`: association query first; on zero
associations return `[]` without touching the task table; otherwise one
batched task query over the collected identifiers. -/
def svcFetchTasksByProject (client : Option ApperClient) (projectId : Int) :
    Except String (List Rec) × List GCall :=
  match client with
  | none => (.error "ApperClient not initialized", [])
  | some c =>
    let aParams := assocQueryParams projectId
    match c.fetchRecords TASK_PROJECT_TABLE aParams with
    | .error e => (.error e, [.fetch TASK_PROJECT_TABLE aParams])
    | .ok aResp =>
      let associations := aResp.data
      if associations.length = 0 then
        (.ok [], [.fetch TASK_PROJECT_TABLE aParams])
      else
        let tParams := tasksInParams (collectedTaskIds associations)
        match c.fetchRecords TASK_TABLE tParams with
        | .ok tResp =>
          (.ok tResp.data, [.fetch TASK_PROJECT_TABLE aParams, .fetch TASK_TABLE tParams])
        | .error e =>
          (.error e, [.fetch TASK_PROJECT_TABLE aParams, .fetch TASK_TABLE tParams])

/-- The authenticated identity held by the Authentication State Container
(`useAuth().user`); operations only test its presence. -/
structure AuthUser where
  Id : Int
deriving DecidableEq, Repr

/-- `err.message || fallback`: the fallback replaces only a falsy (empty)
message. -/
def msgOr (msg fallback : String) : String :=
  if msg = "" then fallback else msg

/-- State of the Task Entity State Container (`TaskProvider`). -/
structure TaskState where
  tasks : List Rec
  currentTask : Option Rec
  loading : Bool
  error : Option String
deriving DecidableEq, Repr

/-- `TaskContext.fetchTasks`: short-circuit when unauthenticated; on
success replace `tasks` wholesale; on rejection record the message and
leave `tasks` alone; clear `loading` in all cases. The returned `Except`
is the promise's outcome for the caller: the catch block swallows the
rejection, so it is always `ok`. -/
def ctxFetchTasks (user : Option AuthUser) (client : Option ApperClient)
    (opts : FetchOptions) (st : TaskState) :
    TaskState × Except String Unit × List GCall :=
  match user with
  | none => (st, .ok (), [])
  | some _ =>
    let st1 := { st with loading := true, error := none }
    let (res, calls) := svcFetchTasks client opts
    match res with
    | .ok fetched => ({ st1 with tasks := fetched, loading := false }, .ok (), calls)
    | .error e =>
      ({ st1 with error := some (msgOr e "Failed to fetch tasks"), loading := false },
       .ok (), calls)

/-- `TaskContext.fetchTaskById`: sets `currentTask` to the result (null
included); returns null and records the message on rejection. -/
def ctxFetchTaskById (user : Option AuthUser) (client : Option ApperClient)
    (taskId : Int) (st : TaskState) :
    TaskState × Except String (Option Rec) × List GCall :=
  match user with
  | none => (st, .ok none, [])
  | some _ =>
    let st1 := { st with loading := true, error := none }
    let (res, calls) := svcFetchTaskById client taskId
    match res with
    | .ok task => ({ st1 with currentTask := task, loading := false }, .ok task, calls)
    | .error e =>
      ({ st1 with
           error := some (msgOr e ("Failed to fetch task with ID " ++ toString taskId)),
           loading := false },
       .ok none, calls)

/-- `TaskContext.createTask`: on success appends the created record to
`tasks` and returns it; on rejection records the message and returns
null. -/
def ctxCreateTask (user : Option AuthUser) (client : Option ApperClient)
    (taskData : RecData) (st : TaskState) :
    TaskState × Except String (Option Rec) × List GCall :=
  match user with
  | none => (st, .ok none, [])
  | some _ =>
    let st1 := { st with loading := true, error := none }
    let (res, calls) := svcCreateTask client taskData
    match res with
    | .ok newTask =>
      ({ st1 with tasks := st1.tasks ++ [newTask], loading := false },
       .ok (some newTask), calls)
    | .error e =>
      ({ st1 with error := some (msgOr e "Failed to create task"), loading := false },
       .ok none, calls)

/-- `TaskContext.updateTask`: on success replaces the entry with matching
`Id` in `tasks` and refreshes `currentTask` when it is that entry; on
rejection records the message and returns null (the failure is caught,
not re-thrown). -/
def ctxUpdateTask (user : Option AuthUser) (client : Option ApperClient)
    (taskId : Int) (taskData : RecData) (st : TaskState) :
    TaskState × Except String (Option Rec) × List GCall :=
  match user with
  | none => (st, .ok none, [])
  | some _ =>
    let st1 := { st with loading := true, error := none }
    let (res, calls) := svcUpdateTask client taskId taskData
    match res with
    | .ok updated =>
      ({ st1 with
           tasks := st1.tasks.map (fun t => if t.Id = taskId then updated else t)
           currentTask :=
             match st1.currentTask with
             | some ct => if ct.Id = taskId then some updated else some ct
             | none => none
           loading := false },
       .ok (some updated), calls)
    | .error e =>
      ({ st1 with
           error := some (msgOr e ("Failed to update task with ID " ++ toString taskId)),
           loading := false },
       .ok none, calls)

/-- `TaskContext.deleteTask`: on success removes the entry from `tasks`,
clears a matching `currentTask`, and returns true; on rejection records
the message and returns false. -/
def ctxDeleteTask (user : Option AuthUser) (client : Option ApperClient)
    (taskId : Int) (st : TaskState) :
    TaskState × Except String Bool × List GCall :=
  match user with
  | none => (st, .ok false, [])
  | some _ =>
    let st1 := { st with loading := true, error := none }
    let (res, calls) := svcDeleteTask client taskId
    match res with
    | .ok _ =>
      ({ st1 with
           tasks := st1.tasks.filter (fun t => t.Id ≠ taskId)
           currentTask :=
             match st1.currentTask with
             | some ct => if ct.Id = taskId then none else some ct
             | none => none
           loading := false },
       .ok true, calls)
    | .error e =>
      ({ st1 with
           error := some (msgOr e ("Failed to delete task with ID " ++ toString taskId)),
           loading := false },
       .ok false, calls)

/-- `TaskContext.associateWithProject`: passes through the created
association; touches no cached records. -/
def ctxAssociateWithProject (user : Option AuthUser) (client : Option ApperClient)
    (taskId projectId : Int) (st : TaskState) :
    TaskState × Except String (Option Rec) × List GCall :=
  match user with
  | none => (st, .ok none, [])
  | some _ =>
    let st1 := { st with loading := true, error := none }
    let (res, calls) := svcAssociateTaskWithProject client taskId projectId
    match res with
    | .ok assoc => ({ st1 with loading := false }, .ok (some assoc), calls)
    | .error e =>
      ({ st1 with
           error := some (msgOr e
             ("Failed to associate task " ++ toString taskId ++
              " with project " ++ toString projectId)),
           loading := false },
       .ok none, calls)

/-- State of the Project Entity State Container (`ProjectProvider`). -/
structure ProjectState where
  projects : List Rec
  currentProject : Option Rec
  projectTasks : List Rec
  loading : Bool
  error : Option String
deriving DecidableEq, Repr

/-- `ProjectContext.fetchProjects`: same shape as `fetchTasks`. -/
def ctxFetchProjects (user : Option AuthUser) (client : Option ApperClient)
    (opts : FetchOptions) (st : ProjectState) :
    ProjectState × Except String Unit × List GCall :=
  match user with
  | none => (st, .ok (), [])
  | some _ =>
    let st1 := { st with loading := true, error := none }
    let (res, calls) := svcFetchProjects client opts
    match res with
    | .ok fetched => ({ st1 with projects := fetched, loading := false }, .ok (), calls)
    | .error e =>
      ({ st1 with error := some (msgOr e "Failed to fetch projects"), loading := false },
       .ok (), calls)

/-- `ProjectContext.createProject`: on success appends the created record
to `projects` and returns it; on rejection records the message and
returns null. -/
def ctxCreateProject (user : Option AuthUser) (client : Option ApperClient)
    (projectData : RecData) (st : ProjectState) :
    ProjectState × Except String (Option Rec) × List GCall :=
  match user with
  | none => (st, .ok none, [])
  | some _ =>
    let st1 := { st with loading := true, error := none }
    let (res, calls) := svcCreateProject client projectData
    match res with
    | .ok newProject =>
      ({ st1 with projects := st1.projects ++ [newProject], loading := false },
       .ok (some newProject), calls)
    | .error e =>
      ({ st1 with error := some (msgOr e "Failed to create project"), loading := false },
       .ok none, calls)

/-- `ProjectContext.deleteProject`: same shape as `deleteTask`. -/
def ctxDeleteProject (user : Option AuthUser) (client : Option ApperClient)
    (projectId : Int) (st : ProjectState) :
    ProjectState × Except String Bool × List GCall :=
  match user with
  | none => (st, .ok false, [])
  | some _ =>
    let st1 := { st with loading := true, error := none }
    let (res, calls) := svcDeleteProject client projectId
    match res with
    | .ok _ =>
      ({ st1 with
           projects := st1.projects.filter (fun p => p.Id ≠ projectId)
           currentProject :=
             match st1.currentProject with
             | some cp => if cp.Id = projectId then none else some cp
             | none => none
           loading := false },
       .ok true, calls)
    | .error e =>
      ({ st1 with
           error := some (msgOr e ("Failed to delete project with ID " ++ toString projectId)),
           loading := false },
       .ok false, calls)

/-- A local-only task as stored by the Home page (persisted to local
storage as-is). Timestamps are integers; `dueDate = none` models the
empty date input. -/
structure LocalTask where
  id : String
  title : String
  description : String
  dueDate : Option Int
  priority : String
  category : String
  categoryColor : String
  createdAt : Int
  isCompleted : Bool
  completedAt : Option Int
deriving DecidableEq, Repr

/-- The MainFeature form's data; `dueDate = none` is the empty string
input (falsy), `some d` the parsed date value. -/
structure FormData where
  title : String
  description : String
  dueDate : Option Int
  priority : String
  category : String
  categoryColor : String
deriving DecidableEq, Repr

/-- The field-level validation errors `validateForm` can set. -/
structure FormErrors where
  title : Option String
  dueDate : Option String
deriving DecidableEq, Repr

/-- JavaScript `String.prototype.trim`: strip whitespace from both ends
(written over the character list so it evaluates by reduction). -/
def jsTrim (s : String) : String :=
  ⟨((s.data.dropWhile Char.isWhitespace).reverse.dropWhile Char.isWhitespace).reverse⟩

/-- `MainFeature.validateForm`: title must be non-empty after trim; a
supplied due date must not be before the start of the current local day
(`startOfToday`). -/
def validateForm (f : FormData) (startOfToday : Int) : FormErrors :=
  { title := if jsTrim f.title = "" then some "Title is required" else none
    dueDate :=
      match f.dueDate with
      | some d => if d < startOfToday then some "Due date cannot be in the past" else none
      | none => none }

/-- `Object.keys(newErrors).length === 0`. -/
def FormErrors.isEmpty (e : FormErrors) : Bool :=
  e.title.isNone && e.dueDate.isNone

/-- The record `handleSubmit` builds on a valid form (`newId` is
`Date.now().toString()`, `now` the creation timestamp). -/
def builtTask (f : FormData) (newId : String) (now : Int) : LocalTask :=
  { id := newId
    title := f.title
    description := f.description
    dueDate := f.dueDate
    priority := f.priority
    category := f.category
    categoryColor := f.categoryColor
    createdAt := now
    isCompleted := false
    completedAt := none }

/-- `Home.addTask`: append the new task to the stored collection. -/
def addTask (tasks : List LocalTask) (newTask : LocalTask) : List LocalTask :=
  tasks ++ [newTask]

/-- `MainFeature.handleSubmit` composed with `Home.addTask`: a failing
validation blocks the add and reports the field errors; a passing one
appends the built task. Total function: no exception path exists. -/
def handleSubmit (f : FormData) (startOfToday : Int) (newId : String) (now : Int)
    (tasks : List LocalTask) : List LocalTask × FormErrors :=
  let errors := validateForm f startOfToday
  if errors.isEmpty then (addTask tasks (builtTask f newId now), errors)
  else (tasks, errors)

/-- The per-element update inside `Home.toggleTaskCompletion`: both the
new `isCompleted` and the new `completedAt` are computed from the
original `task.isCompleted`. -/
def toggleStep (taskId : String) (now : Int) (t : LocalTask) : LocalTask :=
  if t.id = taskId then
    { t with
        isCompleted := !t.isCompleted
        completedAt := if !t.isCompleted then some now else none }
  else t

/-- `Home.toggleTaskCompletion`: map the toggle over the collection. -/
def toggleTaskCompletion (taskId : String) (now : Int) (tasks : List LocalTask) :
    List LocalTask :=
  tasks.map (toggleStep taskId now)

/-- `Home.deleteTask` (local-only): remove by identifier. -/
def deleteLocalTask (taskId : String) (tasks : List LocalTask) : List LocalTask :=
  tasks.filter (fun t => t.id ≠ taskId)

/-! Concrete fixtures used by the witness theorems. -/

/-- A client whose every method rejects with the given message. -/
def failClient (e : String) : ApperClient :=
  { fetchRecords := fun _ _ => .error e
    createRecord := fun _ _ => .error e
    updateRecord := fun _ _ _ => .error e
    deleteRecord := fun _ _ => .error e }

/-- A sample record. -/
def recA : Rec := ⟨7, [("title", .str "Ship it")]⟩

/-- A client whose creates succeed with `recA` and whose other methods
reject. -/
def okCreateClient : ApperClient :=
  { fetchRecords := fun _ _ => .error "unused"
    createRecord := fun _ _ => .ok ⟨recA⟩
    updateRecord := fun _ _ _ => .error "unused"
    deleteRecord := fun _ _ => .error "unused" }

/-- A client whose fetches all return zero records. -/
def zeroFetchClient : ApperClient :=
  { fetchRecords := fun _ _ => .ok ⟨[]⟩
    createRecord := fun _ _ => .error "unused"
    updateRecord := fun _ _ _ => .error "unused"
    deleteRecord := fun _ _ => .error "unused" }

/-- A client whose fetches all return the single record `recA`. -/
def oneFetchClient : ApperClient :=
  { fetchRecords := fun _ _ => .ok ⟨[recA]⟩
    createRecord := fun _ _ => .error "unused"
    updateRecord := fun _ _ _ => .error "unused"
    deleteRecord := fun _ _ => .error "unused" }

/-- An association record pointing at task 7. -/
def assocA : Rec := ⟨1, [("task_id", .num 7)]⟩

/-- A client with one association for every project and one task. -/
def oneAssocClient : ApperClient :=
  { fetchRecords := fun tbl _ =>
      if tbl = TASK_PROJECT_TABLE then .ok ⟨[assocA]⟩ else .ok ⟨[recA]⟩
    createRecord := fun _ _ => .error "unused"
    updateRecord := fun _ _ _ => .error "unused"
    deleteRecord := fun _ _ => .error "unused" }

/-- An empty task-container state. -/
def st0Task : TaskState := ⟨[], none, false, none⟩

/-- An empty project-container state. -/
def st0Project : ProjectState := ⟨[], none, [], false, none⟩

/-- Options object with no overrides (`{}` at the call site). -/
def optsNone : FetchOptions := ⟨none, none, none, none⟩

/-- A sample local-only task, not yet completed. -/
def lt0 : LocalTask :=
  ⟨"a1", "Buy milk", "", none, "Low", "", "#6366f1", 10, false, none⟩

/-! Claims. -/

/-- C1: for every Entity State Container and successful `create(fields)`
call, the returned record's identifier is present in `records` exactly
once afterwards, and `create` appends the new record to the end of
`records` without re-sorting — shown for both cited containers,
`TaskContext.createTask` and `ProjectContext.createProject`. (The
identifier is server-assigned and unique, hence the freshness
hypotheses.) -/
theorem createTask_appends_unique
    (u : AuthUser) (c cp : ApperClient) (taskData projectData : RecData)
    (st : TaskState) (pst : ProjectState) (newTask newProject : Rec)
    (hok : c.createRecord TASK_TABLE taskData = .ok ⟨newTask⟩)
    (hfresh : ∀ t ∈ st.tasks, t.Id ≠ newTask.Id)
    (hokp : cp.createRecord PROJECT_TABLE projectData = .ok ⟨newProject⟩)
    (hfreshp : ∀ p ∈ pst.projects, p.Id ≠ newProject.Id) :
    (ctxCreateTask (some u) (some c) taskData st).1.tasks = st.tasks ++ [newTask]
    ∧ (ctxCreateTask (some u) (some c) taskData st).2.1 = .ok (some newTask)
    ∧ (ctxCreateTask (some u) (some c) taskData st).1.tasks.countP
        (fun t => t.Id == newTask.Id) = 1
    ∧ (ctxCreateProject (some u) (some cp) projectData pst).1.projects
        = pst.projects ++ [newProject]
    ∧ (ctxCreateProject (some u) (some cp) projectData pst).2.1 = .ok (some newProject)
    ∧ (ctxCreateProject (some u) (some cp) projectData pst).1.projects.countP
        (fun p => p.Id == newProject.Id) = 1 := by
  have htasks :
      (ctxCreateTask (some u) (some c) taskData st).1.tasks = st.tasks ++ [newTask] := by
    simp [ctxCreateTask, svcCreateTask, hok]
  have hprojects :
      (ctxCreateProject (some u) (some cp) projectData pst).1.projects
        = pst.projects ++ [newProject] := by
    simp [ctxCreateProject, svcCreateProject, hokp]
  refine ⟨htasks, by simp [ctxCreateTask, svcCreateTask, hok], ?_,
    hprojects, by simp [ctxCreateProject, svcCreateProject, hokp], ?_⟩
  · rw [htasks, List.countP_append]
    have h0 : st.tasks.countP (fun t => t.Id == newTask.Id) = 0 := by
      rw [List.countP_eq_zero]
      intro t ht
      simpa using hfresh t ht
    simp [h0, List.countP_cons]
  · rw [hprojects, List.countP_append]
    have h0 : pst.projects.countP (fun p => p.Id == newProject.Id) = 0 := by
      rw [List.countP_eq_zero]
      intro p hp
      simpa using hfreshp p hp
    simp [h0, List.countP_cons]

/-- Witness for C1 at a concrete client, payload and empty caches, for
both containers. -/
theorem createTask_appends_unique_witness :
    (ctxCreateTask (some ⟨1⟩) (some okCreateClient) [] st0Task).1.tasks = [] ++ [recA]
    ∧ (ctxCreateTask (some ⟨1⟩) (some okCreateClient) [] st0Task).2.1 = .ok (some recA)
    ∧ (ctxCreateTask (some ⟨1⟩) (some okCreateClient) [] st0Task).1.tasks.countP
        (fun t => t.Id == recA.Id) = 1
    ∧ (ctxCreateProject (some ⟨1⟩) (some okCreateClient) [] st0Project).1.projects
        = [] ++ [recA]
    ∧ (ctxCreateProject (some ⟨1⟩) (some okCreateClient) [] st0Project).2.1
        = .ok (some recA)
    ∧ (ctxCreateProject (some ⟨1⟩) (some okCreateClient) [] st0Project).1.projects.countP
        (fun p => p.Id == recA.Id) = 1 := by
  have h := createTask_appends_unique ⟨1⟩ okCreateClient okCreateClient [] []
    st0Task st0Project recA recA rfl
    (by intro t ht; simp [st0Task] at ht) rfl
    (by intro p hp; simp [st0Project] at hp)
  simpa [st0Task, st0Project] using h

/-- C4: every container operation invoked with no authenticated identity
returns its neutral failure value, performs no gateway call (empty
trace), and leaves the whole container state — `lastError` included —
unchanged. -/
theorem unauthenticated_noop
    (client : Option ApperClient) (opts : FetchOptions) (taskId projectId : Int)
    (taskData : RecData) (st : TaskState) (pst : ProjectState) :
    ctxFetchTasks none client opts st = (st, .ok (), [])
    ∧ ctxFetchTaskById none client taskId st = (st, .ok none, [])
    ∧ ctxCreateTask none client taskData st = (st, .ok none, [])
    ∧ ctxUpdateTask none client taskId taskData st = (st, .ok none, [])
    ∧ ctxDeleteTask none client taskId st = (st, .ok false, [])
    ∧ ctxAssociateWithProject none client taskId projectId st = (st, .ok none, [])
    ∧ ctxFetchProjects none client opts pst = (pst, .ok (), [])
    ∧ ctxDeleteProject none client projectId pst = (pst, .ok false, []) :=
  ⟨rfl, rfl, rfl, rfl, rfl, rfl, rfl, rfl⟩

/-- C8: every modelled gateway operation, on every entity type, fails
with the "ApperClient not initialized" error and an empty call trace
(no network interaction) when the client capability is absent. -/
theorem uninitialized_gateway_fails_fast
    (opts : FetchOptions) (id1 id2 : Int) (rd : RecData) :
    svcFetchTasks none opts = (.error "ApperClient not initialized", [])
    ∧ svcFetchTaskById none id1 = (.error "ApperClient not initialized", [])
    ∧ svcCreateTask none rd = (.error "ApperClient not initialized", [])
    ∧ svcUpdateTask none id1 rd = (.error "ApperClient not initialized", [])
    ∧ svcDeleteTask none id1 = (.error "ApperClient not initialized", [])
    ∧ svcAssociateTaskWithProject none id1 id2 = (.error "ApperClient not initialized", [])
    ∧ svcFetchProjects none opts = (.error "ApperClient not initialized", [])
    ∧ svcFetchProjectById none id1 = (.error "ApperClient not initialized", [])
    ∧ svcDeleteProject none id1 = (.error "ApperClient not initialized", [])
    ∧ svcFetchUserById none id1 = (.error "ApperClient not initialized", [])
    ∧ svcFetchTasksByProject none id1 = (.error "ApperClient not initialized", []) :=
  ⟨rfl, rfl, rfl, rfl, rfl, rfl, rfl, rfl, rfl, rfl, rfl⟩

/-- C2 counterexample: with an authenticated user and a gateway whose
update rejects with message "boom", `updateTask` records the message as
`lastError` but resolves normally with `null` — the failure is NOT
re-raised to the container's caller, contradicting the claim. -/
theorem updateTask_not_reraised_cex :
    (ctxUpdateTask (some ⟨1⟩) (some (failClient "boom")) 5 [] st0Task).2.1 = Except.ok none
    ∧ (ctxUpdateTask (some ⟨1⟩) (some (failClient "boom")) 5 [] st0Task).1.error = some "boom"
    ∧ ∀ e, (ctxUpdateTask (some ⟨1⟩) (some (failClient "boom")) 5 [] st0Task).2.1
        ≠ Except.error e := by
  refine ⟨rfl, rfl, ?_⟩
  intro e h
  exact nomatch h

/-- C2 (amended): when the underlying gateway call rejects with a
non-empty message, the container records that message verbatim as
`lastError`, catches the failure and resolves with a neutral failure
value (null / undefined) instead of re-raising it, and issues the
gateway call exactly once (no retry). Shown for the cited operations
`updateTask` and `fetchProjects`. -/
theorem containerError_recorded_swallowed
    (u : AuthUser) (c : ApperClient) (e : String) (taskId : Int) (taskData : RecData)
    (st : TaskState) (opts : FetchOptions) (pst : ProjectState)
    (hupd : c.updateRecord TASK_TABLE taskId taskData = .error e)
    (hfetch : c.fetchRecords PROJECT_TABLE (projectListParams opts) = .error e)
    (hne : e ≠ "") :
    (ctxUpdateTask (some u) (some c) taskId taskData st).1.error = some e
    ∧ (ctxUpdateTask (some u) (some c) taskId taskData st).2.1 = .ok none
    ∧ (ctxUpdateTask (some u) (some c) taskId taskData st).2.2
        = [.update TASK_TABLE taskId taskData]
    ∧ (ctxUpdateTask (some u) (some c) taskId taskData st).1.tasks = st.tasks
    ∧ (ctxFetchProjects (some u) (some c) opts pst).1.error = some e
    ∧ (ctxFetchProjects (some u) (some c) opts pst).2.1 = .ok ()
    ∧ (ctxFetchProjects (some u) (some c) opts pst).2.2
        = [.fetch PROJECT_TABLE (projectListParams opts)] := by
  simp [ctxUpdateTask, svcUpdateTask, ctxFetchProjects, svcFetchProjects,
    hupd, hfetch, msgOr, hne]

/-- Witness for the amended C2 at a concrete failing client. -/
theorem containerError_recorded_swallowed_witness :
    (ctxUpdateTask (some ⟨1⟩) (some (failClient "boom")) 5 [] st0Task).1.error = some "boom"
    ∧ (ctxUpdateTask (some ⟨1⟩) (some (failClient "boom")) 5 [] st0Task).2.1 = .ok none
    ∧ (ctxUpdateTask (some ⟨1⟩) (some (failClient "boom")) 5 [] st0Task).2.2
        = [.update TASK_TABLE 5 []]
    ∧ (ctxUpdateTask (some ⟨1⟩) (some (failClient "boom")) 5 [] st0Task).1.tasks
        = st0Task.tasks
    ∧ (ctxFetchProjects (some ⟨1⟩) (some (failClient "boom")) optsNone st0Project).1.error
        = some "boom"
    ∧ (ctxFetchProjects (some ⟨1⟩) (some (failClient "boom")) optsNone st0Project).2.1
        = .ok ()
    ∧ (ctxFetchProjects (some ⟨1⟩) (some (failClient "boom")) optsNone st0Project).2.2
        = [.fetch PROJECT_TABLE (projectListParams optsNone)] :=
  containerError_recorded_swallowed ⟨1⟩ (failClient "boom") "boom" 5 [] st0Task
    optsNone st0Project rfl rfl (by decide)

/-- C5: a failed gateway call leaves the records cache unchanged:
`fetchAll` on failure sets `lastError`, leaves `records` untouched and
clears the loading flag, and failed create/update/delete calls do not
modify `records`. -/
theorem failure_leaves_records
    (u : AuthUser) (c : ApperClient) (e : String) (opts : FetchOptions)
    (taskId : Int) (taskData : RecData) (st : TaskState)
    (hf : ∀ tbl p, c.fetchRecords tbl p = .error e)
    (hc : ∀ tbl r, c.createRecord tbl r = .error e)
    (hu : ∀ tbl i r, c.updateRecord tbl i r = .error e)
    (hd : ∀ tbl i, c.deleteRecord tbl i = .error e) :
    (ctxFetchTasks (some u) (some c) opts st).1.tasks = st.tasks
    ∧ (ctxFetchTasks (some u) (some c) opts st).1.error
        = some (msgOr e "Failed to fetch tasks")
    ∧ (ctxFetchTasks (some u) (some c) opts st).1.loading = false
    ∧ (ctxCreateTask (some u) (some c) taskData st).1.tasks = st.tasks
    ∧ (ctxUpdateTask (some u) (some c) taskId taskData st).1.tasks = st.tasks
    ∧ (ctxDeleteTask (some u) (some c) taskId st).1.tasks = st.tasks := by
  simp [ctxFetchTasks, svcFetchTasks, ctxCreateTask, svcCreateTask,
    ctxUpdateTask, svcUpdateTask, ctxDeleteTask, svcDeleteTask, hf, hc, hu, hd]

/-- Witness for C5 at a concrete always-failing client. -/
theorem failure_leaves_records_witness :
    (ctxFetchTasks (some ⟨1⟩) (some (failClient "down")) optsNone st0Task).1.tasks
        = st0Task.tasks
    ∧ (ctxFetchTasks (some ⟨1⟩) (some (failClient "down")) optsNone st0Task).1.error
        = some (msgOr "down" "Failed to fetch tasks")
    ∧ (ctxFetchTasks (some ⟨1⟩) (some (failClient "down")) optsNone st0Task).1.loading
        = false
    ∧ (ctxCreateTask (some ⟨1⟩) (some (failClient "down")) [] st0Task).1.tasks
        = st0Task.tasks
    ∧ (ctxUpdateTask (some ⟨1⟩) (some (failClient "down")) 5 [] st0Task).1.tasks
        = st0Task.tasks
    ∧ (ctxDeleteTask (some ⟨1⟩) (some (failClient "down")) 5 st0Task).1.tasks
        = st0Task.tasks :=
  failure_leaves_records ⟨1⟩ (failClient "down") "down" optsNone 5 [] st0Task
    (fun _ _ => rfl) (fun _ _ => rfl) (fun _ _ _ => rfl) (fun _ _ => rfl)

/-- C3: a local-only add with a whitespace-only title is blocked with the
title-required field error, and one with a supplied due date strictly
before the start of the current day is blocked with the due-date field
error; in both cases the stored collection is returned unchanged (and
`handleSubmit` is a total function — no exception is thrown). -/
theorem addTask_validation_blocks
    (f : FormData) (startOfToday : Int) (newId : String) (now : Int)
    (tasks : List LocalTask) :
    (jsTrim f.title = "" →
      (validateForm f startOfToday).title = some "Title is required"
      ∧ (handleSubmit f startOfToday newId now tasks).1 = tasks)
    ∧ (∀ d, f.dueDate = some d → d < startOfToday →
      (validateForm f startOfToday).dueDate = some "Due date cannot be in the past"
      ∧ (handleSubmit f startOfToday newId now tasks).1 = tasks) := by
  constructor
  · intro htitle
    refine ⟨by simp [validateForm, htitle], ?_⟩
    simp [handleSubmit, FormErrors.isEmpty, validateForm, htitle]
  · intro d hdd hlt
    refine ⟨by simp [validateForm, hdd, hlt], ?_⟩
    simp [handleSubmit, FormErrors.isEmpty, validateForm, hdd, hlt]

/-- Witness for C3: an empty title and a yesterday due date are both
blocked on a concrete form. -/
theorem addTask_validation_blocks_witness :
    ((validateForm ⟨"", "", some (-1), "Medium", "", "#6366f1"⟩ 0).title
        = some "Title is required"
      ∧ (handleSubmit ⟨"", "", some (-1), "Medium", "", "#6366f1"⟩ 0 "9" 5 [lt0]).1
        = [lt0])
    ∧ ((validateForm ⟨"", "", some (-1), "Medium", "", "#6366f1"⟩ 0).dueDate
        = some "Due date cannot be in the past"
      ∧ (handleSubmit ⟨"", "", some (-1), "Medium", "", "#6366f1"⟩ 0 "9" 5 [lt0]).1
        = [lt0]) := by
  have h := addTask_validation_blocks ⟨"", "", some (-1), "Medium", "", "#6366f1"⟩ 0 "9" 5 [lt0]
  exact ⟨h.1 (by decide), h.2 (-1) rfl (by decide)⟩

/-- C6: `fetchTasksByProject` first queries the association table for the
project; with zero associations it returns the empty list and its trace
contains no task-table call; with at least one association its trace
contains exactly one task-table call, the batched query whose filter is
membership of `Id` in the collected task identifiers. -/
theorem fetchTasksByProject_shortcircuit
    (c : ApperClient) (projectId : Int) (assocs : List Rec)
    (hassoc : c.fetchRecords TASK_PROJECT_TABLE (assocQueryParams projectId)
        = .ok ⟨assocs⟩) :
    (assocs = [] →
      svcFetchTasksByProject (some c) projectId
        = (.ok [], [.fetch TASK_PROJECT_TABLE (assocQueryParams projectId)])
      ∧ ∀ g ∈ (svcFetchTasksByProject (some c) projectId).2, g.table ≠ TASK_TABLE)
    ∧ (assocs ≠ [] →
      (svcFetchTasksByProject (some c) projectId).2
        = [.fetch TASK_PROJECT_TABLE (assocQueryParams projectId),
           .fetch TASK_TABLE (tasksInParams (collectedTaskIds assocs))]
      ∧ ((svcFetchTasksByProject (some c) projectId).2.filter
          (fun g => g.table == TASK_TABLE))
        = [.fetch TASK_TABLE (tasksInParams (collectedTaskIds assocs))]) := by
  constructor
  · intro hz
    subst hz
    have hrun : svcFetchTasksByProject (some c) projectId
        = (.ok [], [.fetch TASK_PROJECT_TABLE (assocQueryParams projectId)]) := by
      simp [svcFetchTasksByProject, hassoc]
    refine ⟨hrun, ?_⟩
    rw [hrun]
    intro g hg
    simp at hg
    subst hg
    simp [GCall.table, TASK_PROJECT_TABLE, TASK_TABLE]
  · intro hne
    have hlen : ¬ assocs.length = 0 := by
      simpa [List.length_eq_zero] using hne
    have htrace : (svcFetchTasksByProject (some c) projectId).2
        = [.fetch TASK_PROJECT_TABLE (assocQueryParams projectId),
           .fetch TASK_TABLE (tasksInParams (collectedTaskIds assocs))] := by
      rcases h2 : c.fetchRecords TASK_TABLE (tasksInParams (collectedTaskIds assocs))
        with e | r <;>
        simp [svcFetchTasksByProject, hassoc, hlen, h2]
    refine ⟨htrace, ?_⟩
    rw [htrace]
    simp [GCall.table, TASK_PROJECT_TABLE, TASK_TABLE]

/-- Witness for C6 in both branches: a project with no associations and a
project with one. -/
theorem fetchTasksByProject_shortcircuit_witness :
    (svcFetchTasksByProject (some zeroFetchClient) 3
        = (.ok [], [.fetch TASK_PROJECT_TABLE (assocQueryParams 3)])
      ∧ ∀ g ∈ (svcFetchTasksByProject (some zeroFetchClient) 3).2, g.table ≠ TASK_TABLE)
    ∧ ((svcFetchTasksByProject (some oneAssocClient) 3).2
        = [.fetch TASK_PROJECT_TABLE (assocQueryParams 3),
           .fetch TASK_TABLE (tasksInParams (collectedTaskIds [assocA]))]
      ∧ ((svcFetchTasksByProject (some oneAssocClient) 3).2.filter
          (fun g => g.table == TASK_TABLE))
        = [.fetch TASK_TABLE (tasksInParams (collectedTaskIds [assocA]))]) := by
  constructor
  · exact (fetchTasksByProject_shortcircuit zeroFetchClient 3 [] rfl).1 rfl
  · exact (fetchTasksByProject_shortcircuit oneAssocClient 3 [assocA]
      (by simp [oneAssocClient])).2 (by simp)

/-- C9: the gateway's by-id lookups return null — not an error — when the
external store yields zero matching records, and the first matching
record otherwise, for tasks, projects and users alike. -/
theorem getById_null_on_zero
    (c0 c1 : ApperClient) (taskId projectId userId : Int) (r : Rec) (rest : List Rec)
    (ht0 : c0.fetchRecords TASK_TABLE (byIdParams taskFields taskId) = .ok ⟨[]⟩)
    (hp0 : c0.fetchRecords PROJECT_TABLE (byIdParams projectFields projectId) = .ok ⟨[]⟩)
    (hu0 : c0.fetchRecords USER_TABLE (byIdParams userFields userId) = .ok ⟨[]⟩)
    (ht1 : c1.fetchRecords TASK_TABLE (byIdParams taskFields taskId) = .ok ⟨r :: rest⟩)
    (hp1 : c1.fetchRecords PROJECT_TABLE (byIdParams projectFields projectId)
        = .ok ⟨r :: rest⟩)
    (hu1 : c1.fetchRecords USER_TABLE (byIdParams userFields userId) = .ok ⟨r :: rest⟩) :
    (svcFetchTaskById (some c0) taskId).1 = .ok none
    ∧ (svcFetchProjectById (some c0) projectId).1 = .ok none
    ∧ (svcFetchUserById (some c0) userId).1 = .ok none
    ∧ (svcFetchTaskById (some c1) taskId).1 = .ok (some r)
    ∧ (svcFetchProjectById (some c1) projectId).1 = .ok (some r)
    ∧ (svcFetchUserById (some c1) userId).1 = .ok (some r) := by
  simp [svcFetchTaskById, svcFetchProjectById, svcFetchUserById,
    ht0, hp0, hu0, ht1, hp1, hu1]

/-- Witness for C9 at a zero-record client and a one-record client. -/
theorem getById_null_on_zero_witness :
    (svcFetchTaskById (some zeroFetchClient) 4).1 = .ok none
    ∧ (svcFetchProjectById (some zeroFetchClient) 4).1 = .ok none
    ∧ (svcFetchUserById (some zeroFetchClient) 4).1 = .ok none
    ∧ (svcFetchTaskById (some oneFetchClient) 4).1 = .ok (some recA)
    ∧ (svcFetchProjectById (some oneFetchClient) 4).1 = .ok (some recA)
    ∧ (svcFetchUserById (some oneFetchClient) 4).1 = .ok (some recA) :=
  getById_null_on_zero zeroFetchClient oneFetchClient 4 4 4 recA []
    rfl rfl rfl rfl rfl rfl

/-- C7: toggling a stored not-completed local task marks it completed
with a non-null current timestamp; toggling it again marks it
not-completed with a null timestamp; and when its original completion
timestamp was null (the only state the store itself ever pairs with
`isCompleted = false`) the double toggle restores the original record. -/
theorem toggleCompletion_roundtrip
    (ts : List LocalTask) (i : Nat) (t : LocalTask) (taskId : String) (n1 n2 : Int)
    (hget : ts[i]? = some t) (hid : t.id = taskId) (hc : t.isCompleted = false) :
    (toggleTaskCompletion taskId n1 ts)[i]? = some (toggleStep taskId n1 t)
    ∧ (toggleStep taskId n1 t).isCompleted = true
    ∧ (toggleStep taskId n1 t).completedAt = some n1
    ∧ (toggleTaskCompletion taskId n2 (toggleTaskCompletion taskId n1 ts))[i]?
        = some (toggleStep taskId n2 (toggleStep taskId n1 t))
    ∧ (toggleStep taskId n2 (toggleStep taskId n1 t)).isCompleted = false
    ∧ (toggleStep taskId n2 (toggleStep taskId n1 t)).completedAt = none
    ∧ (t.completedAt = none → toggleStep taskId n2 (toggleStep taskId n1 t) = t) := by
  obtain ⟨tid, title, desc, dd, pr, cat, cc, ca, ic, cpa⟩ := t
  simp only at hid hc
  subst hid
  subst hc
  refine ⟨?_, ?_, ?_, ?_, ?_, ?_, ?_⟩
  · simp [toggleTaskCompletion, List.getElem?_map, hget]
  · simp [toggleStep]
  · simp [toggleStep]
  · simp [toggleTaskCompletion, List.getElem?_map, hget]
  · simp [toggleStep]
  · simp [toggleStep]
  · intro hnone
    simp only at hnone
    subst hnone
    simp [toggleStep]

/-- Witness for C7 on a one-element stored collection. -/
theorem toggleCompletion_roundtrip_witness :
    (toggleTaskCompletion "a1" 100 [lt0])[0]? = some (toggleStep "a1" 100 lt0)
    ∧ (toggleStep "a1" 100 lt0).isCompleted = true
    ∧ (toggleStep "a1" 100 lt0).completedAt = some 100
    ∧ (toggleTaskCompletion "a1" 200 (toggleTaskCompletion "a1" 100 [lt0]))[0]?
        = some (toggleStep "a1" 200 (toggleStep "a1" 100 lt0))
    ∧ (toggleStep "a1" 200 (toggleStep "a1" 100 lt0)).isCompleted = false
    ∧ (toggleStep "a1" 200 (toggleStep "a1" 100 lt0)).completedAt = none
    ∧ (lt0.completedAt = none → toggleStep "a1" 200 (toggleStep "a1" 100 lt0) = lt0) :=
  toggleCompletion_roundtrip [lt0] 0 lt0 "a1" 100 200 rfl rfl rfl

/-- C10: for an identifier absent from the local-only stored collection,
`toggleCompletion` and `deleteTask` both return the collection unchanged
(same tasks, fields and order); both are total functions, so no error is
reported. -/
theorem absent_id_frame
    (ts : List LocalTask) (taskId : String) (now : Int)
    (h : ∀ t ∈ ts, t.id ≠ taskId) :
    toggleTaskCompletion taskId now ts = ts ∧ deleteLocalTask taskId ts = ts := by
  constructor
  · unfold toggleTaskCompletion
    induction ts with
    | nil => rfl
    | cons x xs ih =>
      have hx : x.id ≠ taskId := h x (by simp)
      have hxs : ∀ t ∈ xs, t.id ≠ taskId := fun t ht => h t (by simp [ht])
      simp [toggleStep, hx, ih hxs]
  · unfold deleteLocalTask
    rw [List.filter_eq_self]
    intro t ht
    simpa using h t ht

/-- Witness for C10: an identifier not in a concrete one-task store. -/
theorem absent_id_frame_witness :
    toggleTaskCompletion "zz" 100 [lt0] = [lt0]
    ∧ deleteLocalTask "zz" [lt0] = [lt0] :=
  absent_id_frame [lt0] "zz" 100 (by decide)

end TaskFlow
